import Mathlib

/-!
Verification of `sunycell/dsa.py` (Digital Slide Archive retrieval helpers).

The module is a thin wrapper over a remote Girder/DSA REST API.  We embed it
shallowly: the remote server is an `Env` of response oracles (one field per
endpoint or third-party library call), and every helper is a pure function of
the `Env` and its arguments that returns its value together with the list of
HTTP request strings it issued, the list of messages it printed, and the list
of warnings it sent to a logger.  Python exceptions (`assert`, raising HTTP
calls, `AttributeError`) are modelled with `Except`; Python `None` with
`Option`; numeric metadata fields with `ℚ` and `ℕ`.
-/

set_option maxHeartbeats 1000000

/-- A Girder document as used by the code: only the `_id` and `name` fields of
collections, folders and items are ever read. -/
structure GirderDoc where
  _id : String
  name : String
deriving DecidableEq

/-- One entry of a `/folder/{id}/rootpath` response.  The code inspects the
inner `object` dict and checks for a `login` key (users) and then for a
`name` key (folders/collections); we model presence of those keys with
`Option` fields. -/
structure RootObject where
  login : Option String
  name : Option String
deriving DecidableEq

/-- An annotation element: a polygon with an optional `group` (class name)
key and an index standing in for the rest of its payload. -/
structure Element where
  group : Option String
  idx : Nat
deriving DecidableEq

/-- The `annotation` dict inside an annotation response object. -/
structure AnnotationBody where
  elements : List Element
deriving DecidableEq

/-- One object of an `annotation/item/{id}` response:
`annotation_object['annotation']['elements']`. -/
structure AnnotationObject where
  annot : AnnotationBody
deriving DecidableEq

/-- The `/item/{id}/tiles` metadata response, with the fields documented in
`DSAImage._get_metadata`. -/
structure TilesMeta where
  levels : Nat
  magnification : ℚ
  mm_x : ℚ
  mm_y : ℚ
  sizeX : Nat
  sizeY : Nat
  tileWidth : Nat
  tileHeight : Nat
deriving DecidableEq

/-- One row of the dataframe produced by the histomicstk function
`get_bboxes_from_slide_annotations`: a group name and a bounding box. -/
structure ElementInfo where
  group : String
  xmin : ℚ
  ymin : ℚ
  xmax : ℚ
  ymax : ℚ
deriving DecidableEq

/-- Failure of a remote call: `girder_client.HttpError` or any other
exception (the code distinguishes the two in `slide_annotations`). -/
inductive GetErr where
  | httpError
  | otherError
deriving DecidableEq

/-- The remote server and the third-party library calls, as response oracles.
Endpoint oracles are keyed by the literal request string the code builds. -/
structure Env where
  collectionsResp : List GirderDoc
  folderQueryResp : String → List GirderDoc
  rootpathResp : String → List RootObject
  listItemResp : Option String → List GirderDoc
  tilesResp : String → TilesMeta
  annotationResp : String → Except GetErr (List AnnotationObject)
  scaleResp : String → ℚ → ℚ × String
  getBboxes : List AnnotationObject → List ElementInfo
  regionResp : String → Except GetErr String
  htkImage : String → Except GetErr Nat

/-- Result of a module-level helper: value, HTTP requests issued, messages
printed, messages sent to the logger. -/
structure Traced (α : Type) where
  val : α
  reqs : List String
  prints : List String
  logWs : List String

/-- Python truthiness test used by `assert collection_id` and `x is None`
checks, specialised to `Except`: did the call raise? -/
def isRaised {ε α : Type} : Except ε α → Bool
  | .error _ => true
  | .ok _ => false

/-- Render an `Option String` the way a Python f-string renders `None`. -/
def optStr : Option String → String :=
  fun o => o.getD ("None")

/-- Python's `str.lower()`: lowercase every character (the same computation
as `String.toLower`, written structurally). -/
def pyLower (s : String) : String :=
  ⟨s.data.map Char.toLower⟩

/-- Request string built by `get_folder_id`. -/
def folderQueryReq (folder_name : String) (search_limit : Nat) : String :=
  "/folder?parentType=folder&text=" ++ folder_name ++ "&limit=" ++
    toString search_limit ++ "&sort=lowerName&sortdir=1"

/-- Request string for a folder rootpath. -/
def rootpathReq (folder_id : String) : String :=
  "/folder/" ++ folder_id ++ "/rootpath"

/-- Request issued by `conn.listItem(folder_id)`. -/
def listItemReq (folder_id : Option String) : String :=
  "/item?folderId=" ++ optStr folder_id

/-- Request string built by `image_metadata`. -/
def tilesReq (sample_id : String) : String :=
  "/item/" ++ sample_id ++ "/tiles"

/-- Warning printed by `get_folder_id` when no candidate path matches. -/
def folderNotFoundMsg (folder_path : String) : String :=
  "WARNING: Did not find folder path " ++ folder_path ++ " on the server."

/-- Warning printed by `get_folder_id` on an unidentifiable rootpath object.
The Python message interpolates the object repr, which we do not model. -/
def cannotIdentifyMsg : String :=
  "WARNING: Cannot identify the type of a rootpath object."

/-- Message printed by `get_sample_id` when no item name matches. -/
def sampleNotFoundMsg (sample_name folder_path : String) : String :=
  "Did not find sample " ++ sample_name ++ " in " ++ folder_path ++
    ". Please recheck your access and spelling of the path."

/-- AssertionError message of `get_collection_id` when the collection list is
empty. -/
def cannotFindCollectionMsg (collection_name : String) : String :=
  "Cannot find collection named " ++ collection_name ++ " on Histomics. " ++
    "Please check that the server connection is working, that you have " ++
    "access to the collection, and that you are spelling everything " ++
    "correctly."

/-- AssertionError message of `get_collection_id` when no name matched. -/
def connectedButMsg (collection_name : String) : String :=
  "Connected, but could not find " ++ collection_name ++ "."

/-- `get_collection_id(collection_name, conn)`.  Lists all collections, keeps
the `_id` of the last one whose name matches, and `assert`s (raises
`AssertionError`, modelled as `Except.error`) when the list is empty or when
the accumulated id is falsy (Python truthiness: `None` or the empty
string). -/
def get_collection_id (env : Env) (collection_name : String) :
    Traced (Except String String) :=
  let cl := env.collectionsResp
  if cl.isEmpty then
    ⟨.error (cannotFindCollectionMsg collection_name), ["/collection"], [], []⟩
  else
    let cid := cl.foldl
      (fun acc c => if c.name == collection_name then some c._id else acc)
      (none : Option String)
    match cid with
    | none => ⟨.error (connectedButMsg collection_name), ["/collection"], [], []⟩
    | some s =>
      if s == "" then
        ⟨.error (connectedButMsg collection_name), ["/collection"], [], []⟩
      else ⟨.ok s, ["/collection"], [], []⟩

/-- The value appended for one rootpath object: the `login` key is checked
first, then the `name` key. -/
def pickPart (o : RootObject) : Option String :=
  match o.login with
  | some l => some l
  | none => o.name

/-- The rootpath loop of `get_folder_id`: collect `login`-or-`name` of each
ancestor; `none` models the early `return None` on an unidentifiable
object. -/
def rootPathParts : List RootObject → Option (List String)
  | [] => some []
  | o :: rest =>
    match pickPart o with
    | none => none
    | some p => (rootPathParts rest).map (fun ps => p :: ps)

/-- The candidate loop of `get_folder_id`: for each folder matching the
terminal segment, fetch its rootpath, join the parts plus its own name with
slashes, and return its `_id` on the first exact match with `folder_path`. -/
def get_folder_id_go (env : Env) (folder_path : String) :
    List GirderDoc → Traced (Option String)
  | [] => ⟨none, [], [folderNotFoundMsg folder_path], []⟩
  | r :: rest =>
    let req := rootpathReq r._id
    match rootPathParts (env.rootpathResp req) with
    | none => ⟨none, [req], [cannotIdentifyMsg], []⟩
    | some parts =>
      if String.intercalate ("/") (parts ++ [r.name]) == folder_path then
        ⟨some r._id, [req], [], []⟩
      else
        let t := get_folder_id_go env folder_path rest
        ⟨t.val, req :: t.reqs, t.prints, t.logWs⟩

/-- `get_folder_id(conn, folder_path, search_limit=100)`. -/
def get_folder_id (env : Env) (folder_path : String) (search_limit : Nat) :
    Traced (Option String) :=
  let folder_name := (folder_path.splitOn ("/")).getLastD ("")
  let req := folderQueryReq folder_name search_limit
  let t := get_folder_id_go env folder_path (env.folderQueryResp req)
  ⟨t.val, req :: t.reqs, t.prints, t.logWs⟩

/-- `ids_names_from_htk(conn, folder_path)`: resolve the folder, list its
items, and return the parallel lists of ids and names. -/
def ids_names_from_htk (env : Env) (folder_path : String) :
    Traced (List String × List String) :=
  let t := get_folder_id env folder_path 100
  let items := env.listItemResp t.val
  ⟨(items.map (fun i => i._id), items.map (fun i => i.name)),
    t.reqs ++ [listItemReq t.val], t.prints, t.logWs⟩

/-- The `for (id, item) in zip(id_list, item_list)` loop of
`get_sample_id`. -/
def findFirstZip : List (String × String) → String → Option String
  | [], _ => none
  | (i, n) :: rest, target =>
    if n == target then some i else findFirstZip rest target

/-- `get_sample_id(conn, sample_name, folder_path)`. -/
def get_sample_id (env : Env) (sample_name folder_path : String) :
    Traced (Option String) :=
  let t := ids_names_from_htk env folder_path
  match findFirstZip (t.val.1.zip t.val.2) sample_name with
  | some i => ⟨some i, t.reqs, t.prints, t.logWs⟩
  | none =>
    ⟨none, t.reqs, t.prints ++ [sampleNotFoundMsg sample_name folder_path],
      t.logWs⟩

/-- `image_metadata(conn, sample_id)`. -/
def image_metadata (env : Env) (sample_id : String) : Traced TilesMeta :=
  let req := tilesReq sample_id
  ⟨env.tilesResp req, [req], [], []⟩

/-- Message printed or logged by `slide_annotations` on an `HttpError`. -/
def slideNotFoundMsg (slide_id : String) : String :=
  "Could not find an item on the server with id " ++ slide_id ++ "."

/-- Message logged by `slide_annotations` on a generic exception. -/
def slideExcLogMsg (slide_id : String) : String :=
  "Caught exception while getting annotations for " ++ slide_id ++ "."

/-- Message printed by `slide_annotations` on a generic exception. -/
def slideExcPrintMsg (slide_id : String) : String :=
  "Something went wrong getting annotations for " ++ slide_id ++ "."

/-- Message emitted by `slide_annotations` on an empty annotation list (the
function then continues; the early return is commented out in the source). -/
def noAnnotationsMsg (slide_id : String) : String :=
  "No annotations were found for " ++ slide_id ++ "."

/-- `slide_annotations(conn, slide_id, target_mpp, log=None, group_list=None)`.
`log` is modelled by a `Bool` saying whether a logger was supplied; messages
go to `logWs` when it is `true` and to `prints` otherwise.  Note that the
element infos are computed by `get_bboxes_from_slide_annotations` directly on
the annotation response: `scale_factor` is returned to the caller but never
applied to the annotations. -/
def slide_annotations (env : Env) (slide_id : String) (target_mpp : ℚ)
    (log : Bool) (group_list : Option (List String)) :
    Traced (Option (List ElementInfo) × Option ℚ × Option String) :=
  let gl := group_list.map (fun l => l.map (fun s => pyLower s))
  let req := "/annotation/item/" ++ slide_id
  match env.annotationResp req with
  | .error .httpError =>
    if log then ⟨(none, none, none), [req], [], [slideNotFoundMsg slide_id]⟩
    else ⟨(none, none, none), [req], [slideNotFoundMsg slide_id], []⟩
  | .error .otherError =>
    if log then ⟨(none, none, none), [req], [], [slideExcLogMsg slide_id]⟩
    else ⟨(none, none, none), [req], [slideExcPrintMsg slide_id], []⟩
  | .ok resp =>
    let emptyMsgs : List String × List String :=
      if resp.isEmpty then
        if log then ([], [noAnnotationsMsg slide_id])
        else ([noAnnotationsMsg slide_id], [])
      else ([], [])
    let sc := env.scaleResp slide_id target_mpp
    let infos := env.getBboxes resp
    let infos2 :=
      match gl with
      | none => infos
      | some l => infos.filter (fun ei => l.contains ei.group)
    ⟨(some infos2, some sc.1, some sc.2), [req], emptyMsgs.1, emptyMsgs.2⟩

/-- The per-element test of `slide_elements`: the element must carry a
`group` key, and when a `group_list` is given its group must be listed. -/
def elementMatches (group_list : Option (List String)) (e : Element) : Bool :=
  match e.group with
  | none => false
  | some g =>
    match group_list with
    | some l => l.contains g
    | none => true

/-- All elements of all annotations of a response, in encounter order. -/
def allElements (resp : List AnnotationObject) : List Element :=
  resp.flatMap (fun a => a.annot.elements)

/-- The nested collection loop of `slide_elements`. -/
def targetElements (resp : List AnnotationObject)
    (group_list : Option (List String)) : List Element :=
  (allElements resp).filter (elementMatches group_list)

/-- `slide_elements(conn, item_id, target_mpp=None, group_list=None)`.
`target_mpp` is accepted and never used, as in the source.  On an empty
annotation response the Python function returns two empty lists (dropping
the metadata); we render that second component as `none`.  An exception from
the first `conn.get` propagates. -/
def slide_elements (env : Env) (item_id : String) (_target_mpp : Option ℚ)
    (group_list : Option (List String)) :
    Traced (Except GetErr (List Element × Option TilesMeta)) :=
  let req1 := "annotation/item/" ++ item_id
  let req2 := "item/" ++ item_id ++ "/tiles"
  match env.annotationResp req1 with
  | .error e => ⟨.error e, [req1], [], []⟩
  | .ok resp =>
    let meta := env.tilesResp req2
    if resp.isEmpty then
      ⟨.ok ([], none), [req1, req2],
        ["The annotation response had a length of Zero"], []⟩
    else
      ⟨.ok (targetElements resp group_list, some meta), [req1, req2], [], []⟩

/-- AssertionError message of `image_data`. -/
def boundsAssertMsg : String :=
  "bounds_dict is not formatted properly. " ++
    "Please make sure xmin, xmax, ymin, ymax is included in the keys."

/-- Python dict assignment `d[k] = v` on an association list: replace the
value at the first occurrence of `k`, else append. -/
def pyInsert : List (String × Int) → String → Int → List (String × Int)
  | [], k, v => [(k, v)]
  | (k0, v0) :: rest, k, v =>
    if k0 == k then (k0, v) :: rest else (k0, v0) :: pyInsert rest k v

/-- The dict comprehension `{k.lower(): v for k, v in bounds_dict.items()}`. -/
def lowerKeys (bounds_dict : List (String × Int)) : List (String × Int) :=
  bounds_dict.foldl (fun acc p => pyInsert acc (pyLower p.1) p.2) []

/-- The region request string built by `image_data` once the assert has
passed: `xmin` maps to `left`, `xmax` to `right`, `ymin` to `top`, `ymax` to
`bottom`, and `appendStr` is appended when present. -/
def regionGetStr (sample_id : String) (x1 x2 y1 y2 : Int)
    (appendStr : Option String) : String :=
  "item/" ++ sample_id ++ "/tiles/region?left=" ++ toString x1 ++
    "&right=" ++ toString x2 ++ "&top=" ++ toString y1 ++
    "&bottom=" ++ toString y2 ++ appendStr.getD ("")

/-- Message printed by `image_data` when the region GET fails. -/
def regionFailMsg (getStr : String) : String :=
  "Could not retrieve image response with " ++ getStr ++ "."

/-- Message printed by `image_data` when the response cannot be converted. -/
def convertFailMsg : String :=
  "Could not convert image response to image"

/-- `image_data(conn, sample_id, bounds_dict, appendStr=None)`.  The outer
`Except` is the `AssertionError`; the inner `Option` is the `None` sentinel
returned after a caught exception. -/
def image_data (env : Env) (sample_id : String)
    (bounds_dict : List (String × Int)) (appendStr : Option String) :
    Traced (Except String (Option Nat)) :=
  let b := lowerKeys bounds_dict
  match b.lookup ("xmin"), b.lookup ("xmax"),
      b.lookup ("ymin"), b.lookup ("ymax") with
  | some x1, some x2, some y1, some y2 =>
    let getStr := regionGetStr sample_id x1 x2 y1 y2 appendStr
    match env.regionResp getStr with
    | .error _ => ⟨.ok none, [getStr], [regionFailMsg getStr], []⟩
    | .ok raw =>
      match env.htkImage raw with
      | .error _ => ⟨.ok none, [getStr], [convertFailMsg], []⟩
      | .ok im => ⟨.ok (some im), [getStr], [], []⟩
  | _, _, _, _ => ⟨.error boundsAssertMsg, [], [], []⟩

/-- The `DSAImage` instance: the attributes assigned in `__init__`.  `conn`
is the authenticated client, modelled by the response environment. -/
structure DSAImage where
  conn : Env
  collection_name : String
  folder_name : String
  image_name : String
  folder_path : String

/-- `DSAImage.__init__`: stores the four arguments and derives
`folder_path = f'{collection_name}/{folder_name}'`. -/
def DSAImage.init (conn : Env) (collection_name folder_name image_name : String) :
    DSAImage :=
  ⟨conn, collection_name, folder_name, image_name,
    collection_name ++ "/" ++ folder_name⟩

/-- Result of a property access on a `DSAImage`: the value, the post-state of
the instance (the source never assigns to `self` outside `__init__`, so our
embedding returns the receiver unchanged), the requests issued and the
messages printed. -/
structure PropAccess (α : Type) where
  val : α
  post : DSAImage
  reqs : List String
  prints : List String

/-- The `sample_id` property. -/
def DSAImage.sample_id_acc (img : DSAImage) : PropAccess (Option String) :=
  let t := get_sample_id img.conn img.image_name img.folder_path
  ⟨t.val, img, t.reqs, t.prints⟩

/-- The `metadata` property (via `_get_metadata`): resolves `sample_id` and
fetches `/item/{id}/tiles`. -/
def DSAImage.metadata_acc (img : DSAImage) : PropAccess TilesMeta :=
  let s := img.sample_id_acc
  let t := image_metadata img.conn (optStr s.val)
  ⟨t.val, s.post, s.reqs ++ t.reqs, s.prints ++ t.prints⟩

/-- The `levels` property: `self.metadata['levels']`. -/
def DSAImage.levels_acc (img : DSAImage) : PropAccess Nat :=
  let a := img.metadata_acc
  ⟨a.val.levels, a.post, a.reqs, a.prints⟩

/-- The `resolution` property:
`1000 * (self.metadata['mm_x'] + self.metadata['mm_y']) / 2.0`.
The source reads the `metadata` property twice, so the full retrieval chain
runs twice. -/
def DSAImage.resolution_acc (img : DSAImage) : PropAccess ℚ :=
  let a := img.metadata_acc
  let b := a.post.metadata_acc
  ⟨1000 * (a.val.mm_x + b.val.mm_y) / 2, b.post, a.reqs ++ b.reqs,
    a.prints ++ b.prints⟩

/-- The `height` property: `self.metadata['sizeY']`. -/
def DSAImage.height_acc (img : DSAImage) : PropAccess Nat :=
  let a := img.metadata_acc
  ⟨a.val.sizeY, a.post, a.reqs, a.prints⟩

/-- The `width` property: `self.metadata['sizeX']`. -/
def DSAImage.width_acc (img : DSAImage) : PropAccess Nat :=
  let a := img.metadata_acc
  ⟨a.val.sizeX, a.post, a.reqs, a.prints⟩

/-- The `shape` property: `(self.width, self.height)` — two independent
metadata retrievals. -/
def DSAImage.shape_acc (img : DSAImage) : PropAccess (Nat × Nat) :=
  let w := img.width_acc
  let h := w.post.height_acc
  ⟨(w.val, h.val), h.post, w.reqs ++ h.reqs, w.prints ++ h.prints⟩

/-- `annotation_elements[g].append(e)` / `annotation_elements[g] = [e]` on a
Python dict rendered as an insertion-ordered association list. -/
def insertGrouped : List (String × List Element) → String → Element →
    List (String × List Element)
  | [], g, e => [(g, [e])]
  | (k, l) :: rest, g, e =>
    if k == g then (k, l ++ [e]) :: rest
    else (k, l) :: insertGrouped rest g e

/-- The inner element loop of `DSAImage.annotations`; reading `e['group']`
on an element without that key raises `KeyError`. -/
def groupFold : List Element → List (String × List Element) →
    Except String (List (String × List Element))
  | [], acc => .ok acc
  | e :: rest, acc =>
    match e.group with
    | none => .error ("KeyError: group")
    | some g => groupFold rest (insertGrouped acc g e)

/-- The outer annotation-object loop of `DSAImage.annotations`. -/
def groupFoldObjects : List AnnotationObject →
    List (String × List Element) →
    Except String (List (String × List Element))
  | [], acc => .ok acc
  | o :: rest, acc =>
    match groupFold o.annot.elements acc with
    | .error msg => .error msg
    | .ok acc2 => groupFoldObjects rest acc2

/-- The reshaping done by `DSAImage.annotations` on an annotation
response. -/
def DSAImage.annotationsOf (resp : List AnnotationObject) :
    Except String (List (String × List Element)) :=
  groupFoldObjects resp []

/-- The `annotations()` method: fetch `annotation/item/{sample_id}` (no
leading slash in the source) and group the elements. -/
def DSAImage.annotations_acc (img : DSAImage) :
    PropAccess (Except GetErr (Except String (List (String × List Element)))) :=
  let s := img.sample_id_acc
  let req := "annotation/item/" ++ optStr s.val
  match img.conn.annotationResp req with
  | .error e => ⟨.error e, img, s.reqs ++ [req], s.prints⟩
  | .ok resp => ⟨.ok (DSAImage.annotationsOf resp), img, s.reqs ++ [req], s.prints⟩

/-- The attributes a `DSAImage` instance carries (assigned in `__init__`). -/
def dsaImageInstanceAttrs : List String :=
  ["conn", "collection_name", "folder_name", "image_name", "folder_path"]

/-- The attributes found on the `DSAImage` class: its properties and
methods. -/
def dsaImageClassAttrs : List String :=
  ["__init__", "__repr__", "collection_id", "folder_id", "sample_id",
    "metadata", "_get_metadata", "levels", "resolution", "height", "width",
    "shape", "thumbnail", "roi", "annotations"]

/-- Python attribute lookup on a `DSAImage` (a `dict` subclass with no
`__getattr__`): check the instance dict, then the class; otherwise raise
`AttributeError`. -/
def pyGetattr (attr : String) : Except String Unit :=
  if (dsaImageInstanceAttrs ++ dsaImageClassAttrs).contains attr then .ok ()
  else .error ("AttributeError: " ++ attr)

/-- The `thumbnail()` method: it reads `self._sample_id` before calling
`get_slide_thumbnail`, so its outcome is decided by that attribute lookup. -/
def DSAImage.thumbnail_acc : Except String Unit :=
  match pyGetattr ("_sample_id") with
  | .error m => .error m
  | .ok _ => .ok ()

/-- The path `get_folder_id` joins for a candidate folder whose rootpath
objects are all identifiable: each ancestor's `login` (users) or `name`
(folders/collections), then the candidate's own name, joined with
slashes. -/
def joinedPath (env : Env) (r : GirderDoc) : String :=
  String.intercalate ("/")
    (((env.rootpathResp (rootpathReq r._id)).map
        (fun o => (pickPart o).getD (""))) ++ [r.name])

/-- Combine a previous dict entry with newly appended elements: `none` means
the key was absent. -/
def joinGroup : Option (List Element) → List Element → Option (List Element)
  | some l, f => some (l ++ f)
  | none, [] => none
  | none, f => some f

/-- Filler tiles metadata for concrete test environments. -/
def emptyTiles : TilesMeta := ⟨0, 0, 0, 0, 0, 0, 0, 0⟩

/-- A server on which every lookup fails: no collections, no folders, no
items, failing annotation/region/image calls. -/
def envNoColl : Env :=
  ⟨[], fun _ => [], fun _ => [], fun _ => [], fun _ => emptyTiles,
    fun _ => .error .httpError, fun _ _ => (1, ""), fun _ => [],
    fun _ => .error .httpError, fun _ => .error .httpError⟩

/-- A server with one collection whose name matches nothing we ask for. -/
def envCollNoMatch : Env :=
  ⟨[⟨"cid1", "other"⟩], fun _ => [], fun _ => [], fun _ => [],
    fun _ => emptyTiles, fun _ => .error .httpError, fun _ _ => (1, ""),
    fun _ => [], fun _ => .error .httpError, fun _ => .error .httpError⟩

/-- A server whose region GET succeeds but whose response cannot be turned
into an image. -/
def envConvErr : Env :=
  ⟨[], fun _ => [], fun _ => [], fun _ => [], fun _ => emptyTiles,
    fun _ => .error .httpError, fun _ _ => (1, ""), fun _ => [],
    fun _ => .ok ("raw"), fun _ => .error .otherError⟩

/-- A server holding one folder named `b` whose rootpath is the collection
`a`, so that the folder path `a/b` resolves. -/
def envC1 : Env :=
  ⟨[], fun _ => [⟨"id9", "b"⟩], fun _ => [⟨none, some ("a")⟩], fun _ => [],
    fun _ => emptyTiles, fun _ => .error .httpError, fun _ _ => (1, ""),
    fun _ => [], fun _ => .error .httpError, fun _ => .error .httpError⟩

/-- A server whose folder listing contains two items. -/
def envC6 : Env :=
  ⟨[], fun _ => [], fun _ => [],
    fun _ => [⟨"i1", "s1"⟩, ⟨"i2", "s2"⟩], fun _ => emptyTiles,
    fun _ => .error .httpError, fun _ _ => (1, ""), fun _ => [],
    fun _ => .error .httpError, fun _ => .error .httpError⟩

/-- One annotation holding one element of group `tissue`. -/
def annObjC3 : AnnotationObject := ⟨⟨[⟨some ("tissue"), 0⟩]⟩⟩

/-- A server for exercising `slide_annotations`: one annotation, a scale
factor of `2` for the requested mpp, and bounding box `(100, 200, 300,
400)` extracted from the (unscaled) response. -/
def envC3 : Env :=
  ⟨[], fun _ => [], fun _ => [], fun _ => [], fun _ => emptyTiles,
    fun _ => .ok [annObjC3], fun _ _ => (2, "&mpp=1.0"),
    fun _ => [⟨"tissue", 100, 200, 300, 400⟩],
    fun _ => .error .httpError, fun _ => .error .httpError⟩

/-- A three-element annotation response over two groups. -/
def respC5 : List AnnotationObject :=
  [⟨⟨[⟨some ("A"), 1⟩, ⟨some ("B"), 2⟩]⟩⟩, ⟨⟨[⟨some ("A"), 3⟩]⟩⟩]

/-- A server returning `respC5` for every annotation request. -/
def envC10 : Env :=
  ⟨[], fun _ => [], fun _ => [], fun _ => [], fun _ => emptyTiles,
    fun _ => .ok respC5, fun _ _ => (1, ""), fun _ => [],
    fun _ => .error .httpError, fun _ => .error .httpError⟩

/-- A bounds dict whose four keys are spelled with assorted letter cases. -/
def boundsC7 : List (String × Int) :=
  [("XMin", 1), ("xmax", 2), ("Ymin", 3), ("YMAX", 4)]

/-- C9: for every `DSAImage`, calling `thumbnail()` raises `AttributeError`:
it reads `self._sample_id`, the instance attributes assigned in `__init__`
and the class attributes never include `_sample_id` (only `sample_id`), so
the attribute lookup fails. -/
theorem C9_thumbnail_raises_attribute_error :
    DSAImage.thumbnail_acc = Except.error ("AttributeError: _sample_id")
    ∧ (dsaImageInstanceAttrs ++ dsaImageClassAttrs).contains ("_sample_id")
        = false
    ∧ dsaImageClassAttrs.contains ("sample_id") = true := by
  refine ⟨rfl, by decide, by decide⟩

/-- C4: for every `DSAImage`, the `resolution` property equals
`1000 * (mm_x + mm_y) / 2`, the average of the two axis resolutions of the
server metadata converted from millimetres to microns per pixel. -/
theorem C4_resolution_is_average_mpp (img : DSAImage) :
    img.resolution_acc.val =
      (1000 * img.metadata_acc.val.mm_x + 1000 * img.metadata_acc.val.mm_y)
        / 2 := by
  show 1000 * (img.metadata_acc.val.mm_x + img.metadata_acc.val.mm_y) / 2 = _
  ring

/-- C8: `DSAImage` caches nothing and mutates nothing: every property access
returns the instance unchanged, the `metadata` retrieval issues the
`/item/{id}/tiles` request each time, the derived properties re-run the full
retrieval chain on each access (`resolution` and `shape` even run it twice,
because their bodies read two properties), and a second `metadata` access
issues exactly the same requests again. -/
theorem C8_no_caching_no_mutation (img : DSAImage) :
    img.metadata_acc.post = img
    ∧ tilesReq (optStr img.sample_id_acc.val) ∈ img.metadata_acc.reqs
    ∧ img.levels_acc.post = img
    ∧ img.levels_acc.reqs = img.metadata_acc.reqs
    ∧ img.resolution_acc.post = img
    ∧ img.resolution_acc.reqs = img.metadata_acc.reqs ++ img.metadata_acc.reqs
    ∧ img.height_acc.post = img
    ∧ img.height_acc.reqs = img.metadata_acc.reqs
    ∧ img.width_acc.post = img
    ∧ img.width_acc.reqs = img.metadata_acc.reqs
    ∧ img.shape_acc.post = img
    ∧ img.shape_acc.reqs = img.metadata_acc.reqs ++ img.metadata_acc.reqs
    ∧ img.metadata_acc.post.metadata_acc.reqs = img.metadata_acc.reqs := by
  refine ⟨rfl, ?_, rfl, rfl, rfl, rfl, rfl, rfl, rfl, rfl, rfl, rfl, rfl⟩
  simp [DSAImage.metadata_acc, DSAImage.sample_id_acc, image_metadata]

/-- C3: `slide_annotations` does not scale the returned element bounding
boxes.  On a server where the extracted bounding box is `(100, 200, 300,
400)` and the scale factor for the requested `target_mpp` is `2`, the
returned `element_infos` still hold the base-resolution coordinates, not the
target-mpp coordinates `(200, 400, 600, 800)` — `scale_slide_annotations` is
imported but never called, although the source comment speaks of
"now-scaled annotations". -/
theorem C3_element_infos_not_scaled :
    (slide_annotations envC3 ("slide1") 1 false none).val =
      (some [⟨"tissue", 100, 200, 300, 400⟩], some (2 : ℚ),
        some ("&mpp=1.0"))
    ∧ (slide_annotations envC3 ("slide1") 1 false none).val.1 ≠
      some [⟨"tissue", (200 : ℚ), 400, 600, 800⟩] := by
  refine ⟨by decide, by decide⟩

theorem findFirstZip_map_zip (f g : GirderDoc → String)
    (items : List GirderDoc) (n : String) :
    findFirstZip ((items.map f).zip (items.map g)) n =
      (items.find? (fun i => g i == n)).map f := by
  induction items with
  | nil => rfl
  | cons i rest ih =>
    by_cases h : (g i == n) = true
    · simp [findFirstZip, h, List.find?_cons_of_pos]
    · simp only [List.map_cons, List.zip_cons_cons, findFirstZip,
        Bool.not_eq_true] at h ⊢
      rw [List.find?_cons_of_neg _ (by simp [h]), h, if_neg (by simp)]
      exact ih

/-- C6: `get_sample_id` pairs the item ids and names positionally and
returns the `_id` of the first item whose name equals `sample_name`; when no
item matches it prints a message and returns `None`. -/
theorem C6_get_sample_id_first_match (env : Env)
    (sample_name folder_path : String) :
    (get_sample_id env sample_name folder_path).val =
      ((env.listItemResp (get_folder_id env folder_path 100).val).find?
          (fun i => i.name == sample_name)).map (fun i => i._id)
    ∧ ((get_sample_id env sample_name folder_path).val = none →
        sampleNotFoundMsg sample_name folder_path ∈
          (get_sample_id env sample_name folder_path).prints) := by
  have hz := findFirstZip_map_zip (fun i => i._id) (fun i => i.name)
      (env.listItemResp (get_folder_id env folder_path 100).val) sample_name
  simp only [get_sample_id, ids_names_from_htk, hz]
  cases hf : (env.listItemResp (get_folder_id env folder_path 100).val).find?
      (fun i => i.name == sample_name) with
  | none => simp
  | some i => simp

/-- C6 witness: on a server whose folder holds items `s1` and `s2`, asking
for the absent sample `zz` yields `None` and the printed message. -/
theorem C6_witness :
    (get_sample_id envC6 ("zz") ("a/b")).val = none
    ∧ sampleNotFoundMsg ("zz") ("a/b") ∈
        (get_sample_id envC6 ("zz") ("a/b")).prints := by
  have h := C6_get_sample_id_first_match envC6 ("zz") ("a/b")
  exact ⟨by decide, h.2 (by decide)⟩

theorem rootPathParts_of_identifiable (objs : List RootObject)
    (h : ∀ o ∈ objs, (pickPart o).isSome = true) :
    rootPathParts objs =
      some (objs.map (fun o => (pickPart o).getD (""))) := by
  induction objs with
  | nil => rfl
  | cons o rest ih =>
    obtain ⟨p, hp⟩ :=
      Option.isSome_iff_exists.mp (h o (List.mem_cons_self o rest))
    have hrest := ih (fun x hx => h x (List.mem_cons_of_mem o hx))
    simp [rootPathParts, hp, hrest]

theorem get_folder_id_go_resolves (env : Env) (folder_path : String)
    (rs : List GirderDoc)
    (h : ∀ r ∈ rs, ∀ o ∈ env.rootpathResp (rootpathReq r._id),
      (pickPart o).isSome = true) :
    (get_folder_id_go env folder_path rs).val =
      (rs.find? (fun r => joinedPath env r == folder_path)).map
        (fun r => r._id) := by
  induction rs with
  | nil => rfl
  | cons r rest ih =>
    have hr := rootPathParts_of_identifiable _ (h r (List.mem_cons_self r rest))
    have hrest := ih (fun x hx o ho => h x (List.mem_cons_of_mem r hx) o ho)
    simp only [get_folder_id_go, hr, joinedPath]
    split
    · rename_i hc
      rw [List.find?_cons_of_pos _ (by simpa [joinedPath] using hc)]
      rfl
    · rename_i hc
      rw [List.find?_cons_of_neg _ (by simpa [joinedPath] using hc)]
      exact hrest

/-- C1: when every rootpath object of every candidate is identifiable (has a
`login` or a `name` key), `get_folder_id` returns the `_id` of the first
candidate folder (matching the terminal path segment) whose rootpath parts,
with the candidate's own name appended and joined with slashes, equal the
requested `folder_path`, and `None` when no candidate's joined path
matches. -/
theorem C1_get_folder_id_resolves (env : Env) (folder_path : String)
    (search_limit : Nat)
    (h : ∀ r ∈ env.folderQueryResp
        (folderQueryReq ((folder_path.splitOn ("/")).getLastD ("")) search_limit),
      ∀ o ∈ env.rootpathResp (rootpathReq r._id), (pickPart o).isSome = true) :
    (get_folder_id env folder_path search_limit).val =
      ((env.folderQueryResp
          (folderQueryReq ((folder_path.splitOn ("/")).getLastD ("")) search_limit)).find?
        (fun r => joinedPath env r == folder_path)).map (fun r => r._id) := by
  simpa [get_folder_id] using
    get_folder_id_go_resolves env folder_path _ h

/-- C1 witness: on a server holding a folder `b` under collection `a`, the
folder path `a/b` resolves to that folder's id. -/
theorem C1_witness :
    (get_folder_id envC1 ("a/b") 100).val = some ("id9") := by
  have h := C1_get_folder_id_resolves envC1 ("a/b") 100 (by decide)
  rw [h]
  decide

theorem pyInsert_lookup (acc : List (String × Int)) (k2 : String) (v : Int)
    (k : String) :
    (pyInsert acc k2 v).lookup k =
      if k == k2 then some v else acc.lookup k := by
  induction acc with
  | nil =>
    by_cases h : k = k2
    · subst h; simp [pyInsert, List.lookup]
    · have hb : (k == k2) = false := by simp [h]
      simp [pyInsert, List.lookup, hb, h]
  | cons p rest ih =>
    obtain ⟨k0, v0⟩ := p
    by_cases h1 : k0 = k2
    · subst h1
      by_cases h2 : k = k0
      · subst h2; simp [pyInsert, List.lookup]
      · have h2b : (k == k0) = false := by simp [h2]
        simp [pyInsert, List.lookup, h2b, h2]
    · have h1b : (k0 == k2) = false := by simp [h1]
      by_cases h2 : k = k0
      · subst h2
        have hkk2 : (k == k2) = false := by simp [h1]
        simp [pyInsert, List.lookup, h1b, hkk2]
      · have h2b : (k == k0) = false := by simp [h2]
        simp [pyInsert, List.lookup, h1b, h2b, ih]

theorem lowerKeys_lookup_none (bd : List (String × Int)) (k : String) :
    ((lowerKeys bd).lookup k = none) ↔ ∀ p ∈ bd, ¬ pyLower p.1 = k := by
  suffices h : ∀ acc : List (String × Int),
      ((bd.foldl (fun acc p => pyInsert acc (pyLower p.1) p.2) acc).lookup k
          = none)
        ↔ (acc.lookup k = none ∧ ∀ p ∈ bd, ¬ pyLower p.1 = k) by
    simpa [lowerKeys, List.lookup] using h []
  induction bd with
  | nil => intro acc; simp
  | cons p rest ih =>
    intro acc
    simp only [List.foldl_cons]
    rw [ih, pyInsert_lookup]
    by_cases hp : k = pyLower p.1
    · subst hp
      simp
    · have hpb : (k == pyLower p.1) = false := by simp [hp]
      simp only [hpb, Bool.false_eq_true, if_false, List.forall_mem_cons]
      constructor
      · rintro ⟨ha, hr⟩
        exact ⟨ha, fun hq => hp hq.symm, hr⟩
      · rintro ⟨ha, _, hr⟩
        exact ⟨ha, hr⟩

theorem image_data_val_cases (env : Env) (sample_id : String)
    (bd : List (String × Int)) (app : Option String) :
    (∃ x1 x2 y1 y2 : Int,
      (lowerKeys bd).lookup ("xmin") = some x1
      ∧ (lowerKeys bd).lookup ("xmax") = some x2
      ∧ (lowerKeys bd).lookup ("ymin") = some y1
      ∧ (lowerKeys bd).lookup ("ymax") = some y2
      ∧ isRaised (image_data env sample_id bd app).val = false
      ∧ (image_data env sample_id bd app).reqs =
          [regionGetStr sample_id x1 x2 y1 y2 app])
    ∨ (((lowerKeys bd).lookup ("xmin") = none
        ∨ (lowerKeys bd).lookup ("xmax") = none
        ∨ (lowerKeys bd).lookup ("ymin") = none
        ∨ (lowerKeys bd).lookup ("ymax") = none)
      ∧ (image_data env sample_id bd app).val = .error boundsAssertMsg) := by
  cases h1 : (lowerKeys bd).lookup ("xmin") with
  | none => exact Or.inr ⟨Or.inl rfl, by simp [image_data, h1]⟩
  | some x1 =>
  cases h2 : (lowerKeys bd).lookup ("xmax") with
  | none => exact Or.inr ⟨Or.inr (Or.inl rfl), by simp [image_data, h1, h2]⟩
  | some x2 =>
  cases h3 : (lowerKeys bd).lookup ("ymin") with
  | none =>
    exact Or.inr ⟨Or.inr (Or.inr (Or.inl rfl)),
      by simp [image_data, h1, h2, h3]⟩
  | some y1 =>
  cases h4 : (lowerKeys bd).lookup ("ymax") with
  | none =>
    exact Or.inr ⟨Or.inr (Or.inr (Or.inr rfl)),
      by simp [image_data, h1, h2, h3, h4]⟩
  | some y2 =>
    refine Or.inl ⟨x1, x2, y1, y2, rfl, rfl, rfl, rfl, ?_, ?_⟩ <;>
      cases hr : env.regionResp (regionGetStr sample_id x1 x2 y1 y2 app) with
    | error e => simp [image_data, h1, h2, h3, h4, hr, isRaised]
    | ok raw =>
      cases hi : env.htkImage raw <;>
        simp [image_data, h1, h2, h3, h4, hr, hi, isRaised]

/-- C7: `image_data` raises its `AssertionError` exactly when, after
lowercasing the keys of `bounds_dict`, one of `xmin`, `xmax`, `ymin`,
`ymax` is missing (equivalently: no original key lowercases to it); when all
four are present (in any letter case) the assert passes and the single
region request maps `xmin` to `left`, `xmax` to `right`, `ymin` to `top`
and `ymax` to `bottom`. -/
theorem C7_image_data_assert (env : Env) (sample_id : String)
    (bounds_dict : List (String × Int)) (appendStr : Option String) :
    (isRaised (image_data env sample_id bounds_dict appendStr).val = true ↔
      ((∀ p ∈ bounds_dict, ¬ pyLower p.1 = "xmin")
        ∨ (∀ p ∈ bounds_dict, ¬ pyLower p.1 = "xmax")
        ∨ (∀ p ∈ bounds_dict, ¬ pyLower p.1 = "ymin")
        ∨ (∀ p ∈ bounds_dict, ¬ pyLower p.1 = "ymax")))
    ∧ (∀ x1 x2 y1 y2 : Int,
        (lowerKeys bounds_dict).lookup ("xmin") = some x1 →
        (lowerKeys bounds_dict).lookup ("xmax") = some x2 →
        (lowerKeys bounds_dict).lookup ("ymin") = some y1 →
        (lowerKeys bounds_dict).lookup ("ymax") = some y2 →
        isRaised (image_data env sample_id bounds_dict appendStr).val = false
        ∧ (image_data env sample_id bounds_dict appendStr).reqs =
            [regionGetStr sample_id x1 x2 y1 y2 appendStr]) := by
  have hcases := image_data_val_cases env sample_id bounds_dict appendStr
  constructor
  · simp only [← lowerKeys_lookup_none]
    constructor
    · intro hr
      rcases hcases with ⟨x1, x2, y1, y2, _, _, _, _, hfalse, _⟩ | ⟨hd, _⟩
      · rw [hr] at hfalse; cases hfalse
      · exact hd
    · intro hd
      rcases hcases with ⟨x1, x2, y1, y2, ha, hb, hc, he, _, _⟩ | ⟨_, hval⟩
      · rcases hd with hd | hd | hd | hd <;> simp_all
      · rw [hval]; rfl
  · intro x1 x2 y1 y2 h1 h2 h3 h4
    rcases hcases with ⟨a1, a2, a3, a4, ha, hb, hc, he, hfalse, hreqs⟩ | ⟨hd, _⟩
    · rw [h1] at ha; rw [h2] at hb; rw [h3] at hc; rw [h4] at he
      cases ha; cases hb; cases hc; cases he
      exact ⟨hfalse, hreqs⟩
    · rcases hd with hd | hd | hd | hd <;> simp_all

/-- C7 witness: with keys `XMin`, `xmax`, `Ymin`, `YMAX` the assert passes
and the region request maps the four bounds to `left`, `right`, `top`,
`bottom`. -/
theorem C7_witness :
    isRaised (image_data envNoColl ("s") boundsC7 none).val = false
    ∧ (image_data envNoColl ("s") boundsC7 none).reqs =
        [regionGetStr ("s") 1 2 3 4 none] :=
  (C7_image_data_assert envNoColl ("s") boundsC7 none).2 1 2 3 4
    (by decide) (by decide) (by decide) (by decide)

/-- C10: `slide_elements` never returns an element without a `group` key,
for every `group_list` (including `None`, i.e. all groups requested):
ungrouped elements are silently dropped. -/
theorem C10_slide_elements_group_required (env : Env) (item_id : String)
    (target_mpp : Option ℚ) (group_list : Option (List String))
    (r : List Element × Option TilesMeta) (e : Element)
    (hok : (slide_elements env item_id target_mpp group_list).val = .ok r)
    (he : e ∈ r.1) : e.group ≠ none := by
  intro hn
  obtain ⟨r1, r2⟩ := r
  cases ha : env.annotationResp ("annotation/item/" ++ item_id) with
  | error err => simp [slide_elements, ha] at hok
  | ok resp =>
    by_cases hemp : resp.isEmpty
    · simp [slide_elements, ha, hemp] at hok
      obtain ⟨h1, h2⟩ := hok
      subst h1
      simp at he
    · simp [slide_elements, ha, hemp] at hok
      obtain ⟨h1, h2⟩ := hok
      subst h1
      have he2 : e ∈ targetElements resp group_list := by simpa using he
      have hm := (List.mem_filter.mp (by simpa [targetElements] using he2)).2
      simp [elementMatches, hn] at hm

/-- C10 witness: on a server returning `respC5`, the grouped element
`⟨A, 1⟩` is returned by `slide_elements` and indeed carries a group. -/
theorem C10_witness :
    (slide_elements envC10 ("item1") none none).val =
      .ok (targetElements respC5 none, some emptyTiles)
    ∧ (⟨some ("A"), 1⟩ : Element) ∈ (targetElements respC5 none, some emptyTiles).1
    ∧ (⟨some ("A"), 1⟩ : Element).group ≠ none :=
  ⟨rfl, by decide,
    C10_slide_elements_group_required envC10 ("item1") none none
      (targetElements respC5 none, some emptyTiles) ⟨some ("A"), 1⟩
      rfl (by decide)⟩

theorem collection_foldl_none (name : String) (cl : List GirderDoc)
    (h : ∀ c ∈ cl, ¬ c.name = name) :
    ∀ init : Option String,
      cl.foldl (fun acc c => if c.name == name then some c._id else acc) init
        = init := by
  induction cl with
  | nil => intro init; rfl
  | cons c rest ih =>
    intro init
    have hc : (c.name == name) = false := by
      simp [h c (List.mem_cons_self c rest)]
    simp only [List.foldl_cons, hc, Bool.false_eq_true, if_false]
    exact ih (fun x hx => h x (List.mem_cons_of_mem c hx)) init

theorem get_folder_id_go_none_prints (env : Env) (folder_path : String) :
    ∀ rs : List GirderDoc, (get_folder_id_go env folder_path rs).val = none →
      (get_folder_id_go env folder_path rs).prints ≠ [] := by
  intro rs
  induction rs with
  | nil => intro _; simp [get_folder_id_go]
  | cons r rest ih =>
    cases hrp : rootPathParts (env.rootpathResp (rootpathReq r._id)) with
    | none => intro _; simp [get_folder_id_go, hrp]
    | some parts =>
      simp only [get_folder_id_go, hrp]
      split
      · intro hv; exact Option.noConfusion hv
      · intro hv; exact ih hv

/-- C2 (amended): every retrieval helper except `get_collection_id` prints
or logs a warning and returns a sentinel on failure — `get_folder_id`
returns `None` after printing, `get_sample_id` returns `None` after printing
its message, `slide_annotations` returns `(None, None, None)` after printing
or logging, and `image_data` returns `None` after printing both when the
region GET fails and when the response cannot be converted; but
`get_collection_id` instead raises an `AssertionError` (its `assert`
statements) when the collection list is empty or no collection name
matches. -/
theorem C2_amended_failure_behaviour :
    (∀ env : Env, ∀ name : String, env.collectionsResp = [] →
      isRaised (get_collection_id env name).val = true)
    ∧ (∀ env : Env, ∀ name : String,
        (∀ c ∈ env.collectionsResp, ¬ c.name = name) →
        isRaised (get_collection_id env name).val = true)
    ∧ (∀ env : Env, ∀ folder_path : String, ∀ limit : Nat,
        (get_folder_id env folder_path limit).val = none →
        (get_folder_id env folder_path limit).prints ≠ [])
    ∧ (∀ env : Env, ∀ sample_name folder_path : String,
        (get_sample_id env sample_name folder_path).val = none →
        sampleNotFoundMsg sample_name folder_path ∈
          (get_sample_id env sample_name folder_path).prints)
    ∧ (∀ env : Env, ∀ slide_id : String, ∀ mpp : ℚ,
        ∀ gl : Option (List String), ∀ lg : Bool, ∀ er : GetErr,
        env.annotationResp ("/annotation/item/" ++ slide_id) = .error er →
        (slide_annotations env slide_id mpp lg gl).val = (none, none, none)
        ∧ (lg = false →
            (slide_annotations env slide_id mpp lg gl).prints ≠ [])
        ∧ (lg = true →
            (slide_annotations env slide_id mpp lg gl).logWs ≠ []))
    ∧ (∀ env : Env, ∀ sample_id : String, ∀ bd : List (String × Int),
        ∀ app : Option String, ∀ x1 x2 y1 y2 : Int,
        (lowerKeys bd).lookup ("xmin") = some x1 →
        (lowerKeys bd).lookup ("xmax") = some x2 →
        (lowerKeys bd).lookup ("ymin") = some y1 →
        (lowerKeys bd).lookup ("ymax") = some y2 →
        ((isRaised (env.regionResp (regionGetStr sample_id x1 x2 y1 y2 app))
              = true →
            (image_data env sample_id bd app).val = .ok none
            ∧ (image_data env sample_id bd app).prints ≠ [])
          ∧ (∀ raw : String,
              env.regionResp (regionGetStr sample_id x1 x2 y1 y2 app)
                = .ok raw →
              isRaised (env.htkImage raw) = true →
              (image_data env sample_id bd app).val = .ok none
              ∧ (image_data env sample_id bd app).prints ≠ []))) := by
  refine ⟨?_, ?_, ?_, ?_, ?_, ?_⟩
  · intro env name h
    simp [get_collection_id, h, isRaised]
  · intro env name h
    by_cases hemp : env.collectionsResp.isEmpty
    · simp [get_collection_id, hemp, isRaised]
    · have hf := collection_foldl_none name env.collectionsResp h none
      simp only [beq_iff_eq] at hf
      simp [get_collection_id, hemp, hf, isRaised]
  · intro env folder_path limit hv
    exact get_folder_id_go_none_prints env folder_path _ hv
  · intro env sample_name folder_path hv
    cases hf : findFirstZip
        ((ids_names_from_htk env folder_path).val.1.zip
          (ids_names_from_htk env folder_path).val.2) sample_name with
    | some i => simp [get_sample_id, hf] at hv
    | none => simp [get_sample_id, hf]
  · intro env slide_id mpp gl lg er h
    cases er <;> cases lg <;> simp [slide_annotations, h]
  · intro env sample_id bd app x1 x2 y1 y2 h1 h2 h3 h4
    constructor
    · intro hrr
      cases hr : env.regionResp (regionGetStr sample_id x1 x2 y1 y2 app) with
      | ok raw => rw [hr] at hrr; simp [isRaised] at hrr
      | error e =>
        constructor <;> simp [image_data, h1, h2, h3, h4, hr]
    · intro raw hr hir
      cases hi : env.htkImage raw with
      | ok im => rw [hi] at hir; simp [isRaised] at hir
      | error e =>
        constructor <;> simp [image_data, h1, h2, h3, h4, hr, hi]

/-- C2 counterexample: the claim says no retrieval helper raises on a failed
lookup, but `get_collection_id` on a server with no collections raises an
`AssertionError` (modelled as `Except.error`) and prints nothing — it does
not return a sentinel. -/
theorem C2_counterexample :
    isRaised (get_collection_id envNoColl ("x")).val = true
    ∧ (get_collection_id envNoColl ("x")).prints = [] :=
  ⟨rfl, rfl⟩

/-- C2 witness: the amended statement at concrete failing servers. -/
theorem C2_witness :
    isRaised (get_collection_id envNoColl ("y")).val = true
    ∧ isRaised (get_collection_id envCollNoMatch ("x")).val = true
    ∧ (get_folder_id envNoColl ("a/b") 100).prints ≠ []
    ∧ sampleNotFoundMsg ("s") ("a/b") ∈
        (get_sample_id envNoColl ("s") ("a/b")).prints
    ∧ (slide_annotations envNoColl ("sl") 1 false none).val =
        (none, none, none)
    ∧ (slide_annotations envNoColl ("sl") 1 false none).prints ≠ []
    ∧ (image_data envNoColl ("s") boundsC7 none).val = .ok none
    ∧ (image_data envNoColl ("s") boundsC7 none).prints ≠ []
    ∧ (image_data envConvErr ("s") boundsC7 none).val = .ok none
    ∧ (image_data envConvErr ("s") boundsC7 none).prints ≠ [] := by
  obtain ⟨t1, t2, t3, t4, t5, t6⟩ := C2_amended_failure_behaviour
  have h5 := t5 envNoColl ("sl") 1 none false .httpError rfl
  have h6a := (t6 envNoColl ("s") boundsC7 none 1 2 3 4
    (by decide) (by decide) (by decide) (by decide)).1 rfl
  have h6b := (t6 envConvErr ("s") boundsC7 none 1 2 3 4
    (by decide) (by decide) (by decide) (by decide)).2 ("raw") rfl rfl
  exact ⟨t1 envNoColl ("y") rfl, t2 envCollNoMatch ("x") (by decide),
    t3 envNoColl ("a/b") 100 (by decide), t4 envNoColl ("s") ("a/b") (by decide),
    h5.1, h5.2.1 rfl, h6a.1, h6a.2, h6b.1, h6b.2⟩

theorem joinGroup_nil (o : Option (List Element)) : joinGroup o [] = o := by
  cases o with
  | none => rfl
  | some l => simp [joinGroup]

theorem insertGrouped_lookup (acc : List (String × List Element)) (g : String)
    (e : Element) (g2 : String) :
    (insertGrouped acc g e).lookup g2 =
      if g2 == g then some (((acc.lookup g).getD []) ++ [e])
      else acc.lookup g2 := by
  induction acc with
  | nil =>
    by_cases h : g2 = g
    · subst h; simp [insertGrouped, List.lookup]
    · have hb : (g2 == g) = false := by simp [h]
      simp [insertGrouped, List.lookup, hb]
  | cons p rest ih =>
    obtain ⟨k, l⟩ := p
    by_cases h1 : k = g
    · subst h1
      by_cases h2 : g2 = k
      · subst h2
        simp [insertGrouped, List.lookup]
      · have h2b : (g2 == k) = false := by simp [h2]
        simp [insertGrouped, List.lookup, h2b]
    · have h1b : (k == g) = false := by simp [h1]
      have hgk : (g == k) = false := by simp [Ne.symm h1]
      by_cases h2 : g2 = k
      · subst h2
        simp [insertGrouped, List.lookup, h1b, hgk]
      · have h2b : (g2 == k) = false := by simp [h2]
        simp [insertGrouped, List.lookup, h1b, h2b, hgk, ih]

theorem insertGrouped_keys (acc : List (String × List Element)) (g : String)
    (e : Element) :
    (insertGrouped acc g e).map Prod.fst =
      if g ∈ acc.map Prod.fst then acc.map Prod.fst
      else acc.map Prod.fst ++ [g] := by
  induction acc with
  | nil => simp [insertGrouped]
  | cons p rest ih =>
    obtain ⟨k, l⟩ := p
    by_cases h : k = g
    · subst h
      simp [insertGrouped]
    · have hb : (k == g) = false := by simp [h]
      have hgk : ¬ g = k := fun hh => h hh.symm
      by_cases hm : g ∈ rest.map Prod.fst
      · simp [insertGrouped, hb, ih, hm, hgk]
      · simp [insertGrouped, hb, ih, hm, hgk]

theorem insertGrouped_keys_nodup (acc : List (String × List Element))
    (g : String) (e : Element) (hn : (acc.map Prod.fst).Nodup) :
    ((insertGrouped acc g e).map Prod.fst).Nodup := by
  rw [insertGrouped_keys]
  by_cases hm : g ∈ acc.map Prod.fst
  · simpa [hm] using hn
  · simp [hm, List.nodup_append, hn]

theorem groupFold_char (es : List Element) :
    ∀ acc : List (String × List Element),
      (∀ e ∈ es, e.group.isSome = true) →
      (acc.map Prod.fst).Nodup →
      ∃ d, groupFold es acc = .ok d
        ∧ (d.map Prod.fst).Nodup
        ∧ ∀ g : String, d.lookup g =
            joinGroup (acc.lookup g)
              (es.filter (fun e => e.group == some g)) := by
  induction es with
  | nil =>
    intro acc _ hn
    exact ⟨acc, rfl, hn, fun g => by simp [joinGroup_nil]⟩
  | cons e rest ih =>
    intro acc h hn
    obtain ⟨g, hg⟩ :=
      Option.isSome_iff_exists.mp (h e (List.mem_cons_self e rest))
    obtain ⟨d, hd, hdn, hdl⟩ := ih (insertGrouped acc g e)
      (fun x hx => h x (List.mem_cons_of_mem e hx))
      (insertGrouped_keys_nodup acc g e hn)
    refine ⟨d, by simp [groupFold, hg, hd], hdn, ?_⟩
    intro g2
    rw [hdl g2, insertGrouped_lookup]
    by_cases hgg : g2 = g
    · subst hgg
      have hfe : (e.group == some g2) = true := by simp [hg]
      have hfc : List.filter (fun x => x.group == some g2) (e :: rest) =
          e :: List.filter (fun x => x.group == some g2) rest := by
        simp [List.filter_cons, hfe]
      rw [if_pos (by simp), hfc]
      cases hacc : acc.lookup g2 with
      | none => simp [joinGroup]
      | some l => simp [joinGroup]
    · have hfe : (e.group == some g2) = false := by
        simp [hg, Ne.symm hgg]
      have hfc : List.filter (fun x => x.group == some g2) (e :: rest) =
          List.filter (fun x => x.group == some g2) rest := by
        simp [List.filter_cons, hfe]
      rw [if_neg (by simp [hgg]), hfc]

theorem groupFold_append (xs ys : List Element) :
    ∀ acc, groupFold (xs ++ ys) acc =
      match groupFold xs acc with
      | .error m => .error m
      | .ok acc2 => groupFold ys acc2 := by
  induction xs with
  | nil => intro acc; rfl
  | cons e rest ih =>
    intro acc
    simp only [List.cons_append, groupFold]
    cases hg : e.group with
    | none => rfl
    | some g => exact ih _

theorem groupFoldObjects_eq (objs : List AnnotationObject) :
    ∀ acc, groupFoldObjects objs acc = groupFold (allElements objs) acc := by
  induction objs with
  | nil => intro acc; rfl
  | cons o rest ih =>
    intro acc
    have hall : allElements (o :: rest) =
        o.annot.elements ++ allElements rest := by
      simp [allElements]
    rw [groupFoldObjects, hall, groupFold_append]
    cases groupFold o.annot.elements acc with
    | error m => rfl
    | ok acc2 => exact ih acc2

/-- C5: when every element of the annotation response carries a `group` key,
`DSAImage.annotations()` returns a dict whose keys are exactly the groups
that occur (keys are not duplicated), and each key maps to the list of all
elements carrying that group, in encounter order over the response — hence
every element appears exactly once, in its own group's list. -/
theorem C5_annotations_grouping (resp : List AnnotationObject)
    (h : ∀ e ∈ allElements resp, e.group.isSome = true) :
    ∃ d, DSAImage.annotationsOf resp = .ok d
      ∧ (d.map Prod.fst).Nodup
      ∧ ∀ g : String, d.lookup g =
          joinGroup none
            ((allElements resp).filter (fun e => e.group == some g)) := by
  obtain ⟨d, hd, hdn, hdl⟩ :=
    groupFold_char (allElements resp) [] h (by simp)
  refine ⟨d, ?_, hdn, ?_⟩
  · rw [DSAImage.annotationsOf, groupFoldObjects_eq]
    exact hd
  · intro g
    rw [hdl g]
    rfl

/-- C5 witness: the three-element response `respC5` groups into `A` and `B`
with the stated lookup behaviour. -/
theorem C5_witness :
    ∃ d, DSAImage.annotationsOf respC5 = .ok d
      ∧ (d.map Prod.fst).Nodup
      ∧ ∀ g : String, d.lookup g =
          joinGroup none
            ((allElements respC5).filter (fun e => e.group == some g)) :=
  C5_annotations_grouping respC5 (by decide)
